import Mathlib

/-!
Shallow embedding of the activity-detection engine of ddogreen
(src/src/activity_monitor.cpp together with src/include/activity_monitor.h).

Modelling conventions:
* `std::chrono::steady_clock` instants are modelled as natural numbers counting
  seconds; `duration_cast<seconds>(a - b).count()` becomes the integer
  difference `(a : ℤ) - (b : ℤ)`.
* C++ `double` load values and thresholds are modelled as rationals `ℚ`; the
  claims under study only involve order comparisons, which `ℚ` reproduces.
* The pair "`m_systemMonitor` is non-null and `m_systemMonitor->isAvailable()`"
  is collapsed into the single boolean field `m_systemMonitorOk`, since the two
  are only ever tested together in the translated code.
* `m_callback` being a non-null `std::function` is the boolean `m_hasCallback`;
  an invocation `m_callback(b)` is recorded by appending `b` to the observable
  trace `callbackCalls`.
* `std::thread(...).detach()` is recorded by incrementing `threadsSpawned`.
* Logging calls are omitted: they do not affect the monitor state.
-/

namespace DDOGreen

/-- Modelled from the spec: the constant `MINIMUM_STATE_CHANGE_INTERVAL` is
used by `ActivityMonitor::monitorLoop` in src/src/activity_monitor.cpp but its
declaration lives in a header revision that is not present under src/; the spec
fixes it at 60 seconds ("a fixed constant, 60 seconds in the reference
behavior"). -/
def MINIMUM_STATE_CHANGE_INTERVAL : ℤ := 60

/-- State of one `ActivityMonitor` instance: the data members of the class in
src/include/activity_monitor.h as used by src/src/activity_monitor.cpp, plus
the two observables `threadsSpawned` and `callbackCalls`. -/
structure ActivityMonitor where
  m_isActive : Bool
  m_running : Bool
  m_highPerformanceThreshold : ℚ
  m_powerSaveThreshold : ℚ
  m_monitoringFrequencySeconds : ℤ
  m_cpuCoreCount : ℕ
  m_hasCallback : Bool
  m_systemMonitorOk : Bool
  m_lastLoadCheckTime : ℕ
  m_lastStateChangeTime : ℕ
  threadsSpawned : ℕ
  callbackCalls : List Bool
  deriving Repr, DecidableEq

namespace ActivityMonitor

/-- `highPerformanceAbsoluteThreshold = m_highPerformanceThreshold * m_cpuCoreCount`,
recomputed at each use in the C++ code. -/
def hiAbs (s : ActivityMonitor) : ℚ :=
  s.m_highPerformanceThreshold * s.m_cpuCoreCount

/-- `powerSaveAbsoluteThreshold = m_powerSaveThreshold * m_cpuCoreCount`. -/
def loAbs (s : ActivityMonitor) : ℚ :=
  s.m_powerSaveThreshold * s.m_cpuCoreCount

/-- Constructor `ActivityMonitor::ActivityMonitor()`: all flags false,
thresholds and frequency zero, both timestamps set to the construction
instant, core count taken from the platform monitor when available and `1`
otherwise. -/
def construct (now : ℕ) (monitorOk : Bool) (cores : ℕ) : ActivityMonitor :=
  { m_isActive := false
    m_running := false
    m_highPerformanceThreshold := 0
    m_powerSaveThreshold := 0
    m_monitoringFrequencySeconds := 0
    m_cpuCoreCount := if monitorOk = true then cores else 1
    m_hasCallback := false
    m_systemMonitorOk := monitorOk
    m_lastLoadCheckTime := now
    m_lastStateChangeTime := now
    threadsSpawned := 0
    callbackCalls := [] }

/-- `ActivityMonitor::getLoadAverage()`: returns `0.0` when the platform
monitor is missing or unavailable, otherwise the platform monitor's reading
(`raw` stands for the value `m_systemMonitor->getLoadAverage()` would
produce). -/
def getLoadAverage (s : ActivityMonitor) (raw : ℚ) : ℚ :=
  if s.m_systemMonitorOk = false then 0 else raw

/-- `ActivityMonitor::setActivityCallback`. -/
def setActivityCallback (s : ActivityMonitor) (hasCb : Bool) : ActivityMonitor :=
  { s with m_hasCallback := hasCb }

/-- `ActivityMonitor::setLoadThresholds`. -/
def setLoadThresholds (s : ActivityMonitor) (hi lo : ℚ) : ActivityMonitor :=
  { s with m_highPerformanceThreshold := hi, m_powerSaveThreshold := lo }

/-- `ActivityMonitor::setMonitoringFrequency`. -/
def setMonitoringFrequency (s : ActivityMonitor) (f : ℤ) : ActivityMonitor :=
  { s with m_monitoringFrequencySeconds := f }

/-- `ActivityMonitor::isActive`. -/
def isActive (s : ActivityMonitor) : Bool :=
  s.m_isActive

end ActivityMonitor

/-- Lines 175-179 of src/src/activity_monitor.cpp, the dual-threshold
hysteresis decision: `if (!m_isActive && load1min > hi) m_isActive = true;
else if (m_isActive && load1min < lo) m_isActive = false;` as a pure function
from the old state and the sample to the computed new state. -/
def computeNewActive (m_isActive : Bool) (load1min hiThr loThr : ℚ) : Bool :=
  if m_isActive = false ∧ load1min > hiThr then true
  else if m_isActive = true ∧ load1min < loThr then false
  else m_isActive

namespace ActivityMonitor

/-- Lines 157-203 of `ActivityMonitor::monitorLoop` (the body guarded by the
elapsed-time check): read the load, stamp `m_lastLoadCheckTime`, run the
hysteresis decision, and when the state changed and a callback is registered,
either apply the change (invoke the callback and stamp
`m_lastStateChangeTime`) or, within `MINIMUM_STATE_CHANGE_INTERVAL` of the
last applied change, revert `m_isActive` to its previous value. -/
def processSample (s : ActivityMonitor) (now : ℕ) (raw : ℚ) : ActivityMonitor :=
  let load1min := s.getLoadAverage raw
  let s1 : ActivityMonitor := { s with m_lastLoadCheckTime := now }
  let wasActive := s1.m_isActive
  let s2 : ActivityMonitor :=
    { s1 with m_isActive := computeNewActive wasActive load1min s1.hiAbs s1.loAbs }
  if wasActive ≠ s2.m_isActive ∧ s2.m_hasCallback = true then
    if (now : ℤ) - (s2.m_lastStateChangeTime : ℤ) ≥ MINIMUM_STATE_CHANGE_INTERVAL then
      { s2 with
          callbackCalls := s2.callbackCalls ++ [s2.m_isActive]
          m_lastStateChangeTime := now }
    else
      { s2 with m_isActive := wasActive }
  else s2

/-- Sleep amount at the bottom of `monitorLoop`:
`std::max(m_monitoringFrequencySeconds, 10)` seconds. -/
def sleepDuration (freq : ℤ) : ℤ :=
  max freq 10

/-- One pass of the `while (m_running)` loop of `ActivityMonitor::monitorLoop`:
when running, sample if at least `m_monitoringFrequencySeconds` have elapsed
since `m_lastLoadCheckTime`, then sleep `sleepDuration` seconds. Returns the
new state and the instant at which the next pass begins (the loop body itself
is treated as instantaneous). -/
def loopIter (s : ActivityMonitor) (now : ℕ) (raw : ℚ) : ActivityMonitor × ℕ :=
  if s.m_running = true then
    let s1 : ActivityMonitor :=
      if (now : ℤ) - (s.m_lastLoadCheckTime : ℤ) ≥ s.m_monitoringFrequencySeconds
      then s.processSample now raw else s
    (s1, now + (sleepDuration s1.m_monitoringFrequencySeconds).toNat)
  else (s, now)

/-- `ActivityMonitor::start()` (lines 52-100): early-return `true` when
already running; fail with `false` and untouched state when the platform
monitor is unavailable or the frequency is non-positive; otherwise set
`m_running`, stamp `m_lastLoadCheckTime`, perform the immediate initial
evaluation when a callback is registered (set `m_isActive` from the load and
invoke the callback), and spawn-and-detach the monitor thread. -/
def start (s : ActivityMonitor) (now : ℕ) (raw : ℚ) : Bool × ActivityMonitor :=
  if s.m_running = true then (true, s)
  else if s.m_systemMonitorOk = false then (false, s)
  else if s.m_monitoringFrequencySeconds ≤ 0 then (false, s)
  else
    let s1 : ActivityMonitor := { s with m_running := true, m_lastLoadCheckTime := now }
    let s2 : ActivityMonitor :=
      if s1.m_hasCallback = true then
        let load1min := s1.getLoadAverage raw
        let act : Bool := decide (load1min > s1.hiAbs)
        { s1 with m_isActive := act, callbackCalls := s1.callbackCalls ++ [act] }
      else s1
    (true, { s2 with threadsSpawned := s2.threadsSpawned + 1 })

/-- `ActivityMonitor::stop()` (lines 103-106): the entire effect is
`m_running = false` (plus a log line); there is no join and no other
synchronization with the detached monitor thread. -/
def stop (s : ActivityMonitor) : ActivityMonitor :=
  { s with m_running := false }

/-- Folding `processSample` over a list of `(time, raw load)` samples. -/
def processAll (s : ActivityMonitor) (evs : List (ℕ × ℚ)) : ActivityMonitor :=
  evs.foldl (fun t e => t.processSample e.1 e.2) s

end ActivityMonitor

/-- Position of the detached monitor thread inside
`while (m_running) { ... }`: about to test `m_running`, past the test and
inside the body, or exited. -/
inductive ThreadPhase
  | atLoopHead
  | inBody
  | exited
  deriving Repr, DecidableEq

/-- Joint state of a monitor instance and its detached monitor thread, with
two observables: whether `stop()` has already returned, and how many callback
invocations happened after `stop()` returned. -/
structure Exec where
  mon : ActivityMonitor
  phase : ThreadPhase
  stopReturned : Bool
  postStopCallbacks : ℕ
  deriving Repr, DecidableEq

/-- Atomic scheduling events. Because `start()` detaches the monitor thread
(line 97 of src/src/activity_monitor.cpp) and `stop()` only assigns
`m_running = false` with no join or other synchronization (lines 103-106),
the OS scheduler may run `stop()` to completion between the thread's
`while (m_running)` test and the body of that same iteration; each event here
is one such atomic region. -/
inductive Evt
  | loopHead
  | loopBody (now : ℕ) (raw : ℚ)
  | stopCall
  deriving Repr, DecidableEq

/-- Effect of one atomic event on the joint state. `loopHead` is the
`while (m_running)` test; `loopBody` is one full loop body (sampling guarded
by the elapsed-time check) executed at instant `now` with raw load `raw`;
`stopCall` is a complete run of `ActivityMonitor::stop()`. Callback
invocations performed while `stopReturned` is already set are counted in
`postStopCallbacks`. -/
def execStep (e : Exec) (ev : Evt) : Exec :=
  match ev with
  | .loopHead =>
      match e.phase with
      | .atLoopHead =>
          if e.mon.m_running = true then { e with phase := .inBody }
          else { e with phase := .exited }
      | _ => e
  | .loopBody now raw =>
      match e.phase with
      | .inBody =>
          let m :=
            if (now : ℤ) - (e.mon.m_lastLoadCheckTime : ℤ) ≥ e.mon.m_monitoringFrequencySeconds
            then e.mon.processSample now raw else e.mon
          let fired := m.callbackCalls.length - e.mon.callbackCalls.length
          { e with
              mon := m
              phase := .atLoopHead
              postStopCallbacks :=
                e.postStopCallbacks + (if e.stopReturned = true then fired else 0) }
      | _ => e
  | .stopCall => { e with mon := e.mon.stop, stopReturned := true }

/-- Run a finite schedule of atomic events. -/
def execRun (e : Exec) (evs : List Evt) : Exec :=
  evs.foldl execStep e

/-! Helper lemmas shared by several claims. -/

/-- One sampling step never changes the configuration fields, the platform
monitor handle, the callback registration or the running flag. -/
theorem processSample_preserves (s : ActivityMonitor) (now : ℕ) (raw : ℚ) :
    (s.processSample now raw).m_highPerformanceThreshold = s.m_highPerformanceThreshold
    ∧ (s.processSample now raw).m_powerSaveThreshold = s.m_powerSaveThreshold
    ∧ (s.processSample now raw).m_cpuCoreCount = s.m_cpuCoreCount
    ∧ (s.processSample now raw).m_systemMonitorOk = s.m_systemMonitorOk
    ∧ (s.processSample now raw).m_hasCallback = s.m_hasCallback
    ∧ (s.processSample now raw).m_running = s.m_running
    ∧ (s.processSample now raw).m_monitoringFrequencySeconds = s.m_monitoringFrequencySeconds := by
  unfold ActivityMonitor.processSample
  dsimp only
  split_ifs <;> simp

theorem processSample_hiAbs (s : ActivityMonitor) (now : ℕ) (raw : ℚ) :
    (s.processSample now raw).hiAbs = s.hiAbs := by
  unfold ActivityMonitor.hiAbs
  rw [(processSample_preserves s now raw).1, (processSample_preserves s now raw).2.2.1]

theorem processSample_loAbs (s : ActivityMonitor) (now : ℕ) (raw : ℚ) :
    (s.processSample now raw).loAbs = s.loAbs := by
  unfold ActivityMonitor.loAbs
  rw [(processSample_preserves s now raw).2.1, (processSample_preserves s now raw).2.2.1]

theorem processSample_getLoadAverage (s : ActivityMonitor) (now : ℕ) (raw x : ℚ) :
    (s.processSample now raw).getLoadAverage x = s.getLoadAverage x := by
  unfold ActivityMonitor.getLoadAverage
  rw [(processSample_preserves s now raw).2.2.2.1]

/-- In the hysteresis dead zone (strictly between the two absolute
thresholds) the decision function keeps the current state. -/
theorem computeNewActive_deadzone (a : Bool) (load hiThr loThr : ℚ)
    (h1 : loThr < load) (h2 : load < hiThr) :
    computeNewActive a load hiThr loThr = a := by
  unfold computeNewActive
  rcases a with _ | _ <;> simp [not_lt.mpr (le_of_lt h2), not_lt.mpr (le_of_lt h1)]

/-- When the decision does not change the state, a sampling step only stamps
the load-check time. -/
theorem processSample_no_transition (s : ActivityMonitor) (now : ℕ) (raw : ℚ)
    (h : computeNewActive s.m_isActive (s.getLoadAverage raw) s.hiAbs s.loAbs = s.m_isActive) :
    s.processSample now raw = { s with m_lastLoadCheckTime := now } := by
  unfold ActivityMonitor.processSample
  dsimp only
  have hh : computeNewActive s.m_isActive (s.getLoadAverage raw)
      ({ s with m_lastLoadCheckTime := now } : ActivityMonitor).hiAbs
      ({ s with m_lastLoadCheckTime := now } : ActivityMonitor).loAbs = s.m_isActive := h
  rw [hh]
  simp

/-- When the computed transition differs from the current state, a callback is
registered and at least `MINIMUM_STATE_CHANGE_INTERVAL` seconds have passed
since the last applied change, the sampling step applies the transition:
state updated, callback invoked, both timestamps stamped with `now`. -/
theorem processSample_applied (s : ActivityMonitor) (now : ℕ) (raw : ℚ)
    (htrig : computeNewActive s.m_isActive (s.getLoadAverage raw) s.hiAbs s.loAbs ≠ s.m_isActive)
    (hcb : s.m_hasCallback = true)
    (helapsed : (now : ℤ) - (s.m_lastStateChangeTime : ℤ) ≥ MINIMUM_STATE_CHANGE_INTERVAL) :
    s.processSample now raw =
      { s with
          m_isActive := computeNewActive s.m_isActive (s.getLoadAverage raw) s.hiAbs s.loAbs
          m_lastLoadCheckTime := now
          m_lastStateChangeTime := now
          callbackCalls :=
            s.callbackCalls ++ [computeNewActive s.m_isActive (s.getLoadAverage raw) s.hiAbs s.loAbs] } := by
  unfold ActivityMonitor.processSample
  dsimp only
  rw [if_pos ⟨fun hx => htrig hx.symm, hcb⟩, if_pos helapsed]
  simp [ActivityMonitor.hiAbs, ActivityMonitor.loAbs]

/-- When the computed transition differs from the current state and a callback
is registered but the minimum interval has not yet elapsed, the sampling step
suppresses the transition: the state, the last-change timestamp and the
callback trace are all left untouched; only the load-check time is stamped. -/
theorem processSample_suppressed (s : ActivityMonitor) (now : ℕ) (raw : ℚ)
    (htrig : computeNewActive s.m_isActive (s.getLoadAverage raw) s.hiAbs s.loAbs ≠ s.m_isActive)
    (hcb : s.m_hasCallback = true)
    (hclose : (now : ℤ) - (s.m_lastStateChangeTime : ℤ) < MINIMUM_STATE_CHANGE_INTERVAL) :
    s.processSample now raw = { s with m_lastLoadCheckTime := now } := by
  unfold ActivityMonitor.processSample
  dsimp only
  rw [if_pos ⟨fun hx => htrig hx.symm, hcb⟩, if_neg (not_le.mpr hclose)]

/-! Claim theorems. -/

/-- C5: in every engine step the performance-entry comparison is strict `>`
and the power-save-entry comparison is strict `<`: a sample exactly equal to
`enterPerformance * coreCount` does not trigger entry to Active, a sample
exactly equal to `enterPowerSave * coreCount` does not trigger entry to Idle,
and a sample strictly above `enterPerformance * coreCount` in state Idle does
trigger Active. -/
theorem claim_C5_boundary_strictness (s : ActivityMonitor) (now : ℕ) (raw : ℚ)
    (hok : s.m_systemMonitorOk = true) :
    (s.m_isActive = false → (s.processSample now s.hiAbs).m_isActive = false)
    ∧ (s.m_isActive = true → (s.processSample now s.loAbs).m_isActive = true)
    ∧ (s.m_isActive = false → raw > s.hiAbs →
        computeNewActive s.m_isActive (s.getLoadAverage raw) s.hiAbs s.loAbs = true) := by
  have hload : ∀ x : ℚ, s.getLoadAverage x = x := by
    intro x
    unfold ActivityMonitor.getLoadAverage
    rw [hok]
    simp
  refine ⟨fun hidle => ?_, fun hact => ?_, fun hidle hgt => ?_⟩
  · have hdec : computeNewActive s.m_isActive (s.getLoadAverage s.hiAbs) s.hiAbs s.loAbs
        = s.m_isActive := by
      unfold computeNewActive
      rw [hload, hidle]
      simp
    rw [processSample_no_transition s now s.hiAbs hdec]
    exact hidle
  · have hdec : computeNewActive s.m_isActive (s.getLoadAverage s.loAbs) s.hiAbs s.loAbs
        = s.m_isActive := by
      unfold computeNewActive
      rw [hload, hact]
      simp
    rw [processSample_no_transition s now s.loAbs hdec]
    exact hact
  · unfold computeNewActive
    rw [hload, hidle]
    simp [hgt]

/-- Concrete instance for the C5 witness: one core, thresholds 0.70 and 0.30,
available platform monitor. -/
def c5idle : ActivityMonitor :=
  { m_isActive := false, m_running := true
    m_highPerformanceThreshold := 7/10, m_powerSaveThreshold := 3/10
    m_monitoringFrequencySeconds := 10, m_cpuCoreCount := 1
    m_hasCallback := true, m_systemMonitorOk := true
    m_lastLoadCheckTime := 0, m_lastStateChangeTime := 0
    threadsSpawned := 1, callbackCalls := [] }

/-- Witness for C5 at one core, thresholds 0.70/0.30, raw sample 0.80. -/
theorem claim_C5_boundary_strictness_witness :
    c5idle.m_systemMonitorOk = true
    ∧ ((c5idle.m_isActive = false → (c5idle.processSample 30 c5idle.hiAbs).m_isActive = false)
      ∧ (c5idle.m_isActive = true → (c5idle.processSample 30 c5idle.loAbs).m_isActive = true)
      ∧ (c5idle.m_isActive = false → (4/5 : ℚ) > c5idle.hiAbs →
          computeNewActive c5idle.m_isActive (c5idle.getLoadAverage (4/5)) c5idle.hiAbs c5idle.loAbs = true)) :=
  ⟨rfl, claim_C5_boundary_strictness c5idle 30 (4/5) rfl⟩

/-- C6: for every sequence of samples whose (acquired) values stay strictly
between `enterPowerSave * coreCount` and `enterPerformance * coreCount`, the
activity state never changes: dead-zone stability. -/
theorem claim_C6_dead_zone_stability (s : ActivityMonitor) (evs : List (ℕ × ℚ))
    (h : ∀ e ∈ evs, s.loAbs < s.getLoadAverage e.2 ∧ s.getLoadAverage e.2 < s.hiAbs) :
    (s.processAll evs).m_isActive = s.m_isActive := by
  induction evs generalizing s with
  | nil => rfl
  | cons e rest ih =>
      have he := h e (List.mem_cons_self e rest)
      have hstep : s.processSample e.1 e.2 = { s with m_lastLoadCheckTime := e.1 } :=
        processSample_no_transition s e.1 e.2
          (computeNewActive_deadzone s.m_isActive (s.getLoadAverage e.2) s.hiAbs s.loAbs he.1 he.2)
      have hrest : ∀ x ∈ rest,
          (s.processSample e.1 e.2).loAbs < (s.processSample e.1 e.2).getLoadAverage x.2
          ∧ (s.processSample e.1 e.2).getLoadAverage x.2 < (s.processSample e.1 e.2).hiAbs := by
        intro x hx
        rw [processSample_loAbs, processSample_hiAbs, processSample_getLoadAverage]
        exact h x (List.mem_cons_of_mem e hx)
      have := ih (s.processSample e.1 e.2) hrest
      calc (s.processAll (e :: rest)).m_isActive
          = ((s.processSample e.1 e.2).processAll rest).m_isActive := rfl
        _ = (s.processSample e.1 e.2).m_isActive := this
        _ = s.m_isActive := by rw [hstep]

/-- Witness for C6: thresholds 0.70/0.30 on one core, three in-band samples. -/
theorem claim_C6_dead_zone_stability_witness :
    (∀ e ∈ [((10 : ℕ), (1/2 : ℚ)), (20, 2/5), (30, 3/5)],
        c5idle.loAbs < c5idle.getLoadAverage e.2 ∧ c5idle.getLoadAverage e.2 < c5idle.hiAbs)
    ∧ (c5idle.processAll [(10, 1/2), (20, 2/5), (30, 3/5)]).m_isActive = c5idle.m_isActive := by
  refine ⟨by with_unfolding_all decide, claim_C6_dead_zone_stability c5idle _ (by with_unfolding_all decide)⟩

/-- C2: when two evaluations would each trigger a transition and the second
comes less than `MINIMUM_STATE_CHANGE_INTERVAL` seconds after the first
applied one, only the first transition takes effect: the second evaluation
leaves the whole state of the first transition untouched (state, timestamp,
callback trace) apart from stamping the load-check time, so the suppressed
transition is not queued for later. -/
theorem claim_C2_minimum_interval_suppression (s : ActivityMonitor) (t1 t2 : ℕ) (raw1 raw2 : ℚ)
    (hcb : s.m_hasCallback = true)
    (h1trig : computeNewActive s.m_isActive (s.getLoadAverage raw1) s.hiAbs s.loAbs ≠ s.m_isActive)
    (h1elapsed : (t1 : ℤ) - (s.m_lastStateChangeTime : ℤ) ≥ MINIMUM_STATE_CHANGE_INTERVAL)
    (h2trig : computeNewActive (s.processSample t1 raw1).m_isActive
        ((s.processSample t1 raw1).getLoadAverage raw2)
        (s.processSample t1 raw1).hiAbs (s.processSample t1 raw1).loAbs
        ≠ (s.processSample t1 raw1).m_isActive)
    (h2close : (t2 : ℤ) - (t1 : ℤ) < MINIMUM_STATE_CHANGE_INTERVAL) :
    (s.processSample t1 raw1).processSample t2 raw2
      = { s.processSample t1 raw1 with m_lastLoadCheckTime := t2 } := by
  have hs1 : (s.processSample t1 raw1).m_lastStateChangeTime = t1 := by
    rw [processSample_applied s t1 raw1 h1trig hcb h1elapsed]
  have hcb1 : (s.processSample t1 raw1).m_hasCallback = true := by
    rw [(processSample_preserves s t1 raw1).2.2.2.2.1]
    exact hcb
  exact processSample_suppressed (s.processSample t1 raw1) t2 raw2 h2trig hcb1
    (by rw [hs1]; exact h2close)

/-- Witness for C2: idle monitor, thresholds 0.70/0.30, one core; sample 0.80
at t=60 flips to Active (applied, 60 s after the constructor timestamp),
sample 0.20 at t=100 would flip back but comes 40 s later, so it is
suppressed. -/
theorem claim_C2_minimum_interval_suppression_witness :
    (c5idle.m_hasCallback = true
      ∧ computeNewActive c5idle.m_isActive (c5idle.getLoadAverage (4/5)) c5idle.hiAbs c5idle.loAbs
          ≠ c5idle.m_isActive
      ∧ ((60 : ℕ) : ℤ) - (c5idle.m_lastStateChangeTime : ℤ) ≥ MINIMUM_STATE_CHANGE_INTERVAL
      ∧ (((100 : ℕ) : ℤ) - ((60 : ℕ) : ℤ)) < MINIMUM_STATE_CHANGE_INTERVAL)
    ∧ (c5idle.processSample 60 (4/5)).processSample 100 (1/5)
        = { c5idle.processSample 60 (4/5) with m_lastLoadCheckTime := 100 } :=
  ⟨⟨by with_unfolding_all decide, by with_unfolding_all decide, by with_unfolding_all decide, by with_unfolding_all decide⟩,
    claim_C2_minimum_interval_suppression c5idle 60 100 (4/5) (1/5)
      (by with_unfolding_all decide) (by with_unfolding_all decide) (by with_unfolding_all decide) (by with_unfolding_all decide) (by with_unfolding_all decide)⟩

/-- C7: `start()` returns `false` with the state completely unchanged (so no
thread spawned, no callback invoked) exactly when the monitor is not already
running and either the platform monitor is unavailable or the monitoring
frequency is unset or non-positive. -/
theorem claim_C7_start_failure_conditions (s : ActivityMonitor) (now : ℕ) (raw : ℚ) :
    ((s.start now raw).1 = false ↔
      s.m_running = false
        ∧ (s.m_systemMonitorOk = false ∨ s.m_monitoringFrequencySeconds ≤ 0))
    ∧ ((s.start now raw).1 = false → (s.start now raw).2 = s) := by
  unfold ActivityMonitor.start
  split_ifs with h1 h2 h3 <;> simp_all

/-- Concrete instance for the C7 witness: not running, platform monitor
unavailable. -/
def c7unavailable : ActivityMonitor :=
  { m_isActive := false, m_running := false
    m_highPerformanceThreshold := 7/10, m_powerSaveThreshold := 3/10
    m_monitoringFrequencySeconds := 10, m_cpuCoreCount := 1
    m_hasCallback := true, m_systemMonitorOk := false
    m_lastLoadCheckTime := 0, m_lastStateChangeTime := 0
    threadsSpawned := 0, callbackCalls := [] }

/-- Witness for C7: with the platform monitor unavailable, `start()` fails
and leaves the state untouched. -/
theorem claim_C7_start_failure_conditions_witness :
    (((c7unavailable.start 0 (4/5)).1 = false ↔
      c7unavailable.m_running = false
        ∧ (c7unavailable.m_systemMonitorOk = false ∨ c7unavailable.m_monitoringFrequencySeconds ≤ 0))
    ∧ ((c7unavailable.start 0 (4/5)).1 = false → (c7unavailable.start 0 (4/5)).2 = c7unavailable)) :=
  claim_C7_start_failure_conditions c7unavailable 0 (4/5)

/-- C8: calling `start()` while already running returns `true` and changes
nothing (in particular `threadsSpawned` stays put, so only one background
task exists), calling `stop()` while not running changes nothing, and `stop()`
is idempotent so calling it twice is safe. -/
theorem claim_C8_idempotent_lifecycle (s t : ActivityMonitor) (now : ℕ) (raw : ℚ)
    (hs : s.m_running = true) (ht : t.m_running = false) :
    s.start now raw = (true, s)
    ∧ (s.start now raw).2.threadsSpawned = s.threadsSpawned
    ∧ t.stop = t
    ∧ t.stop.stop = t.stop
    ∧ s.stop.stop = s.stop := by
  have hstart : s.start now raw = (true, s) := by
    unfold ActivityMonitor.start
    rw [if_pos hs]
  refine ⟨hstart, by rw [hstart], ?_, ?_, ?_⟩
  · cases t
    simp only [ActivityMonitor.stop]
    simp_all
  · cases t
    simp [ActivityMonitor.stop]
  · cases s
    simp [ActivityMonitor.stop]

/-- Running instance for the C8 witness. -/
def c8running : ActivityMonitor :=
  { m_isActive := true, m_running := true
    m_highPerformanceThreshold := 7/10, m_powerSaveThreshold := 3/10
    m_monitoringFrequencySeconds := 10, m_cpuCoreCount := 1
    m_hasCallback := true, m_systemMonitorOk := true
    m_lastLoadCheckTime := 0, m_lastStateChangeTime := 0
    threadsSpawned := 1, callbackCalls := [true] }

/-- Stopped instance for the C8 witness. -/
def c8stopped : ActivityMonitor :=
  { m_isActive := false, m_running := false
    m_highPerformanceThreshold := 7/10, m_powerSaveThreshold := 3/10
    m_monitoringFrequencySeconds := 10, m_cpuCoreCount := 1
    m_hasCallback := true, m_systemMonitorOk := true
    m_lastLoadCheckTime := 0, m_lastStateChangeTime := 0
    threadsSpawned := 0, callbackCalls := [] }

/-- Witness for C8 on a running and a stopped instance. -/
theorem claim_C8_idempotent_lifecycle_witness :
    (c8running.m_running = true ∧ c8stopped.m_running = false)
    ∧ (c8running.start 5 (1/2) = (true, c8running)
      ∧ (c8running.start 5 (1/2)).2.threadsSpawned = c8running.threadsSpawned
      ∧ c8stopped.stop = c8stopped
      ∧ c8stopped.stop.stop = c8stopped.stop
      ∧ c8running.stop.stop = c8running.stop) :=
  ⟨⟨rfl, rfl⟩, claim_C8_idempotent_lifecycle c8running c8stopped 5 (1/2) rfl rfl⟩

/-- C9: when the platform monitor is missing or reports unavailable, acquiring
a sample yields the neutral value `0`, one pass of the sampling loop leaves
the running flag untouched (the loop keeps going instead of aborting), and
with a non-negative performance threshold an idle engine can never be pushed
to Active by the neutral reading, so the engine is merely biased toward
Idle. -/
theorem claim_C9_unavailable_is_neutral (s : ActivityMonitor) (now : ℕ) (raw : ℚ)
    (h : s.m_systemMonitorOk = false) :
    s.getLoadAverage raw = 0
    ∧ ((s.loopIter now raw).1).m_running = s.m_running
    ∧ (0 ≤ s.hiAbs → s.m_isActive = false → ((s.loopIter now raw).1).m_isActive = false) := by
  have hload : s.getLoadAverage raw = 0 := by
    unfold ActivityMonitor.getLoadAverage
    rw [h]
    simp
  refine ⟨hload, ?_, ?_⟩
  · unfold ActivityMonitor.loopIter
    dsimp only
    split_ifs with h1 h2 <;>
      simp [(processSample_preserves s now raw).2.2.2.2.2.1]
  · intro hpos hidle
    have hdec : computeNewActive s.m_isActive (s.getLoadAverage raw) s.hiAbs s.loAbs
        = s.m_isActive := by
      unfold computeNewActive
      rw [hload, hidle]
      simp [not_lt.mpr hpos]
    unfold ActivityMonitor.loopIter
    dsimp only
    split_ifs with h1 h2 <;>
      simp_all [processSample_no_transition s now raw hdec]

/-- Unavailable-monitor instance for the C9 witness. -/
def c9unavailable : ActivityMonitor :=
  { m_isActive := false, m_running := true
    m_highPerformanceThreshold := 7/10, m_powerSaveThreshold := 3/10
    m_monitoringFrequencySeconds := 10, m_cpuCoreCount := 1
    m_hasCallback := true, m_systemMonitorOk := false
    m_lastLoadCheckTime := 0, m_lastStateChangeTime := 0
    threadsSpawned := 1, callbackCalls := [] }

/-- Witness for C9 on an unavailable platform monitor with a raw reading that
would otherwise cross the performance threshold. -/
theorem claim_C9_unavailable_is_neutral_witness :
    c9unavailable.m_systemMonitorOk = false
    ∧ (c9unavailable.getLoadAverage (4/5) = 0
      ∧ ((c9unavailable.loopIter 30 (4/5)).1).m_running = c9unavailable.m_running
      ∧ (0 ≤ c9unavailable.hiAbs → c9unavailable.m_isActive = false →
          ((c9unavailable.loopIter 30 (4/5)).1).m_isActive = false)) :=
  ⟨rfl, claim_C9_unavailable_is_neutral c9unavailable 30 (4/5) rfl⟩

/-- C10: with no callback registered, `start()` skips the immediate initial
evaluation entirely (the state and the callback trace are unchanged no matter
the load), and a sampling-loop evaluation applies every computed transition
immediately, with no minimum-interval suppression, no timestamp update and no
callback: both the initial evaluation and the suppression logic are guarded
on a callback being present. -/
theorem claim_C10_no_callback_guards (s : ActivityMonitor) (now now2 : ℕ) (raw raw2 : ℚ)
    (hcb : s.m_hasCallback = false) :
    ((s.m_running = false ∧ s.m_systemMonitorOk = true
        ∧ ¬ s.m_monitoringFrequencySeconds ≤ 0) →
      ((s.start now raw).2.m_isActive = s.m_isActive
        ∧ (s.start now raw).2.callbackCalls = s.callbackCalls))
    ∧ (s.processSample now2 raw2).m_isActive
        = computeNewActive s.m_isActive (s.getLoadAverage raw2) s.hiAbs s.loAbs
    ∧ (s.processSample now2 raw2).m_lastStateChangeTime = s.m_lastStateChangeTime
    ∧ (s.processSample now2 raw2).callbackCalls = s.callbackCalls := by
  have hloop : s.processSample now2 raw2
      = { s with
            m_isActive := computeNewActive s.m_isActive (s.getLoadAverage raw2) s.hiAbs s.loAbs
            m_lastLoadCheckTime := now2 } := by
    unfold ActivityMonitor.processSample
    dsimp only
    rw [if_neg]
    · simp [ActivityMonitor.hiAbs, ActivityMonitor.loAbs]
    · intro hx
      rw [hcb] at hx
      exact Bool.false_ne_true hx.2
  refine ⟨fun ⟨hrun, hok, hfreq⟩ => ?_, by rw [hloop], by rw [hloop], by rw [hloop]⟩
  unfold ActivityMonitor.start
  rw [if_neg (by rw [hrun]; exact Bool.false_ne_true), if_neg (by simp [hok]),
    if_neg hfreq]
  dsimp only
  rw [if_neg (by rw [hcb]; exact Bool.false_ne_true)]
  exact ⟨rfl, rfl⟩

/-- Callback-free instance for the C10 witness: idle, high load pending, last
state change only 5 seconds ago (so with a callback the transition would be
suppressed). -/
def c10nocb : ActivityMonitor :=
  { m_isActive := false, m_running := false
    m_highPerformanceThreshold := 7/10, m_powerSaveThreshold := 3/10
    m_monitoringFrequencySeconds := 10, m_cpuCoreCount := 1
    m_hasCallback := false, m_systemMonitorOk := true
    m_lastLoadCheckTime := 0, m_lastStateChangeTime := 5
    threadsSpawned := 0, callbackCalls := [] }

/-- Witness for C10: `start()` at high load leaves the state Idle, and a loop
evaluation 5 seconds after the last change still applies the transition with
no timestamp update and no callback. -/
theorem claim_C10_no_callback_guards_witness :
    c10nocb.m_hasCallback = false
    ∧ (((c10nocb.m_running = false ∧ c10nocb.m_systemMonitorOk = true
          ∧ ¬ c10nocb.m_monitoringFrequencySeconds ≤ 0) →
        ((c10nocb.start 7 (4/5)).2.m_isActive = c10nocb.m_isActive
          ∧ (c10nocb.start 7 (4/5)).2.callbackCalls = c10nocb.callbackCalls))
      ∧ (c10nocb.processSample 10 (4/5)).m_isActive
          = computeNewActive c10nocb.m_isActive (c10nocb.getLoadAverage (4/5)) c10nocb.hiAbs c10nocb.loAbs
      ∧ (c10nocb.processSample 10 (4/5)).m_lastStateChangeTime = c10nocb.m_lastStateChangeTime
      ∧ (c10nocb.processSample 10 (4/5)).callbackCalls = c10nocb.callbackCalls) :=
  ⟨rfl, claim_C10_no_callback_guards c10nocb 7 10 (4/5) (4/5) rfl⟩

/-- Fresh configured instance for C3: constructed (timestamps 5), thresholds
0.70/0.30 on one core, frequency 10, callback registered, not yet started. -/
def c3fresh : ActivityMonitor :=
  { m_isActive := false, m_running := false
    m_highPerformanceThreshold := 7/10, m_powerSaveThreshold := 3/10
    m_monitoringFrequencySeconds := 10, m_cpuCoreCount := 1
    m_hasCallback := true, m_systemMonitorOk := true
    m_lastLoadCheckTime := 5, m_lastStateChangeTime := 5
    threadsSpawned := 0, callbackCalls := [] }

/-- C3 counterexample: starting `c3fresh` at instant 100 with load 0.80 sets
the activity state to Active (and invokes the callback), yet
`m_lastStateChangeTime` keeps its construction-time value 5 instead of being
updated to 100 — the initial evaluation in `start()` does not touch the
last-transition timestamp. -/
theorem claim_C3_counterexample :
    ((c3fresh.start 100 (4/5)).2.m_isActive = true)
    ∧ ((c3fresh.start 100 (4/5)).2.callbackCalls = [true])
    ∧ ((c3fresh.start 100 (4/5)).2.m_lastStateChangeTime = 5)
    ∧ ((c3fresh.start 100 (4/5)).2.m_lastStateChangeTime ≠ 100) := by
  with_unfolding_all decide

/-- C3 amended: the immediate initial evaluation inside a successful `start()`
sets the activity state from the current load, invokes the callback with it,
and stamps `m_lastLoadCheckTime` with the start instant, but it leaves
`m_lastStateChangeTime` unchanged: the last-transition timestamp keeps its
constructor value until the first transition applied inside the sampling
loop. -/
theorem claim_C3_initial_eval_timestamp (s : ActivityMonitor) (now : ℕ) (raw : ℚ)
    (hrun : s.m_running = false) (hok : s.m_systemMonitorOk = true)
    (hfreq : ¬ s.m_monitoringFrequencySeconds ≤ 0) (hcb : s.m_hasCallback = true) :
    (s.start now raw).2.m_isActive = decide (raw > s.hiAbs)
    ∧ (s.start now raw).2.callbackCalls = s.callbackCalls ++ [decide (raw > s.hiAbs)]
    ∧ (s.start now raw).2.m_lastStateChangeTime = s.m_lastStateChangeTime
    ∧ (s.start now raw).2.m_lastLoadCheckTime = now := by
  unfold ActivityMonitor.start
  rw [if_neg (by rw [hrun]; exact Bool.false_ne_true), if_neg (by simp [hok]), if_neg hfreq]
  dsimp only
  rw [if_pos hcb]
  have hload : ∀ x : ℚ,
      ({ s with m_running := true, m_lastLoadCheckTime := now } : ActivityMonitor).getLoadAverage x
        = x := by
    intro x
    unfold ActivityMonitor.getLoadAverage
    simp [hok]
  rw [hload]
  simp [ActivityMonitor.hiAbs]

/-- Witness for the amended C3 on `c3fresh` at instant 100 and load 0.80. -/
theorem claim_C3_initial_eval_timestamp_witness :
    ((c3fresh.start 100 (4/5)).2.m_isActive = decide ((4/5 : ℚ) > c3fresh.hiAbs)
    ∧ (c3fresh.start 100 (4/5)).2.callbackCalls
        = c3fresh.callbackCalls ++ [decide ((4/5 : ℚ) > c3fresh.hiAbs)]
    ∧ (c3fresh.start 100 (4/5)).2.m_lastStateChangeTime = c3fresh.m_lastStateChangeTime
    ∧ (c3fresh.start 100 (4/5)).2.m_lastLoadCheckTime = 100) :=
  claim_C3_initial_eval_timestamp c3fresh 100 (4/5) rfl rfl
    (by with_unfolding_all decide) rfl

/-- Running instance with a 1-second configured frequency for C4. -/
def c4fast : ActivityMonitor :=
  { m_isActive := false, m_running := true
    m_highPerformanceThreshold := 7/10, m_powerSaveThreshold := 3/10
    m_monitoringFrequencySeconds := 1, m_cpuCoreCount := 1
    m_hasCallback := true, m_systemMonitorOk := true
    m_lastLoadCheckTime := 0, m_lastStateChangeTime := 0
    threadsSpawned := 1, callbackCalls := [] }

/-- C4 counterexample: with the configured frequency 1 (inside the accepted
range 1..300) a running loop pass started at instant 5 schedules its next pass
at instant 15, i.e. it sleeps `max(1, 10) = 10` seconds — not the configured
1 second the claim requires. -/
theorem claim_C4_counterexample :
    c4fast.m_monitoringFrequencySeconds = 1
    ∧ (c4fast.loopIter 5 (1/2)).2 = 5 + 10
    ∧ (c4fast.loopIter 5 (1/2)).2 ≠ 5 + 1 := by
  with_unfolding_all decide

/-- C4 amended: between passes the running background task sleeps
`max(frequency, 10)` seconds, so for configured frequencies of at least 10
seconds (up to the accepted 300) it sleeps exactly the configured frequency,
while for frequencies of 1..9 seconds it sleeps 10 seconds. -/
theorem claim_C4_sleep_is_clamped (s : ActivityMonitor) (now : ℕ) (raw : ℚ)
    (hrun : s.m_running = true)
    (h1 : 1 ≤ s.m_monitoringFrequencySeconds) (h2 : s.m_monitoringFrequencySeconds ≤ 300) :
    (s.loopIter now raw).2
        = now + (ActivityMonitor.sleepDuration s.m_monitoringFrequencySeconds).toNat
    ∧ (10 ≤ s.m_monitoringFrequencySeconds →
        (s.loopIter now raw).2 = now + s.m_monitoringFrequencySeconds.toNat) := by
  have hfreq : ∀ nw rw_,
      (s.processSample nw rw_).m_monitoringFrequencySeconds = s.m_monitoringFrequencySeconds :=
    fun nw rw_ => (processSample_preserves s nw rw_).2.2.2.2.2.2
  have hmain : (s.loopIter now raw).2
      = now + (ActivityMonitor.sleepDuration s.m_monitoringFrequencySeconds).toNat := by
    unfold ActivityMonitor.loopIter
    rw [if_pos hrun]
    dsimp only
    split_ifs with hel
    · rw [hfreq]
    · rfl
  refine ⟨hmain, fun h10 => ?_⟩
  rw [hmain]
  unfold ActivityMonitor.sleepDuration
  rw [max_eq_left h10]

/-- Witness for the amended C4 on a running instance with frequency 30. -/
theorem claim_C4_sleep_is_clamped_witness :
    (c8running.setMonitoringFrequency 30).m_running = true
    ∧ (1 : ℤ) ≤ (c8running.setMonitoringFrequency 30).m_monitoringFrequencySeconds
    ∧ (c8running.setMonitoringFrequency 30).m_monitoringFrequencySeconds ≤ 300
    ∧ (((c8running.setMonitoringFrequency 30).loopIter 40 (1/2)).2
          = 40 + (ActivityMonitor.sleepDuration
              (c8running.setMonitoringFrequency 30).m_monitoringFrequencySeconds).toNat
      ∧ ((10 : ℤ) ≤ (c8running.setMonitoringFrequency 30).m_monitoringFrequencySeconds →
          ((c8running.setMonitoringFrequency 30).loopIter 40 (1/2)).2
            = 40 + (30 : ℤ).toNat)) :=
  ⟨rfl, by with_unfolding_all decide, by with_unfolding_all decide,
    claim_C4_sleep_is_clamped (c8running.setMonitoringFrequency 30) 40 (1/2) rfl
      (by with_unfolding_all decide) (by with_unfolding_all decide)⟩

/-- Joint state for C1: a running monitor (thresholds 0.70/0.30, one core,
frequency 10, callback registered, both timestamps 0) whose detached monitor
thread is about to test `while (m_running)`; `stop()` has not been called. -/
def c1joint : Exec :=
  { mon :=
      { m_isActive := false, m_running := true
        m_highPerformanceThreshold := 7/10, m_powerSaveThreshold := 3/10
        m_monitoringFrequencySeconds := 10, m_cpuCoreCount := 1
        m_hasCallback := true, m_systemMonitorOk := true
        m_lastLoadCheckTime := 0, m_lastStateChangeTime := 0
        threadsSpawned := 1, callbackCalls := [] }
    phase := ThreadPhase.atLoopHead
    stopReturned := false
    postStopCallbacks := 0 }

/-- C1: the claim that `stop()` joins the background task and that no callback
fires after `stop()` returns fails on the code: `stop()` only assigns
`m_running = false` (src/src/activity_monitor.cpp lines 103-106) and the
thread was detached at start (line 97), so the schedule in which the thread
passes its `while (m_running)` test, then `stop()` runs to completion and
returns, then the body of that same iteration executes at instant 60 with
load 0.80, ends with `stop()` returned, the monitor stopped, and exactly one
callback invocation that happened after `stop()` returned. -/
theorem claim_C1_callback_after_stop :
    (execRun c1joint [Evt.loopHead, Evt.stopCall, Evt.loopBody 60 (4/5)]).stopReturned = true
    ∧ (execRun c1joint [Evt.loopHead, Evt.stopCall, Evt.loopBody 60 (4/5)]).mon.m_running = false
    ∧ (execRun c1joint [Evt.loopHead, Evt.stopCall, Evt.loopBody 60 (4/5)]).mon.callbackCalls
        = [true]
    ∧ (execRun c1joint [Evt.loopHead, Evt.stopCall, Evt.loopBody 60 (4/5)]).postStopCallbacks
        = 1 := by
  with_unfolding_all decide

end DDOGreen
